import Mathlib

/-!
Shallow embedding of `cesmii_validator/validator.py` (CESMII SM Profile
Validator) and proofs about it.

Modelling conventions:
* Python/JSON values are the inductive `Json`.  Python `bool` is a subclass of
  `int`, so integer `isinstance` checks also accept booleans (`True` counts
  as `1`, `False` as `0`); this is captured by `pyIntValue`.
* Python floats are modelled as rationals (`Rat`); no claim depends on
  floating-point rounding, only on the runtime type tag.
* Python dicts are association lists; JSON object keys are strings.
  Dict-comprehension semantics (last value wins, first position kept) is
  `pyDictInsert`.
* `str()` is `pystr` / `pyrepr`; container and float rendering approximates
  CPython's but is exact on strings, ints, bools and None, which is all any
  message in the validator interpolates in practice.
* The Python code calls `.get` on values it assumes to be dicts and iterates
  values it assumes to be lists; on other shapes CPython raises.  The
  embedding totalises those accesses (`jget`, `jitems`, `dictGetOpt`) and is
  therefore faithful on the documents the validator accepts without raising.
* The unbounded recursion of `ProfileValidator.validate` through
  `_validate_nested_profile` is embedded with explicit fuel
  (`validateFuel`); `none` means the fuel ran out.  Fuel is consumed exactly
  at each entry to `validate`.
-/

namespace Cesmii

/-- Python/JSON values as handled by the validator. -/
inductive Json where
  | null
  | bool (b : Bool)
  | int (n : Int)
  | float (q : Rat)
  | str (s : String)
  | arr (items : List Json)
  | obj (kvs : List (String × Json))
deriving Repr

mutual

def Json.beqFn : Json → Json → Bool
  | .null, .null => true
  | .bool a, .bool b => a == b
  | .int a, .int b => a == b
  | .float a, .float b => a == b
  | .str a, .str b => a == b
  | .arr xs, .arr ys => Json.beqListFn xs ys
  | .obj xs, .obj ys => Json.beqKVFn xs ys
  | _, _ => false

def Json.beqListFn : List Json → List Json → Bool
  | [], [] => true
  | x :: xs, y :: ys => Json.beqFn x y && Json.beqListFn xs ys
  | _, _ => false

def Json.beqKVFn : List (String × Json) → List (String × Json) → Bool
  | [], [] => true
  | (k1, x) :: xs, (k2, y) :: ys => k1 == k2 && Json.beqFn x y && Json.beqKVFn xs ys
  | _, _ => false

end

mutual

theorem Json.beqFn_iff : ∀ (a b : Json), Json.beqFn a b = true ↔ a = b
  | .null, b => by cases b <;> simp [Json.beqFn]
  | .bool a, b => by cases b <;> simp [Json.beqFn]
  | .int a, b => by cases b <;> simp [Json.beqFn]
  | .float a, b => by cases b <;> simp [Json.beqFn]
  | .str a, b => by cases b <;> simp [Json.beqFn]
  | .arr xs, b => by
    cases b <;> simp [Json.beqFn]
    exact Json.beqListFn_iff xs _
  | .obj xs, b => by
    cases b <;> simp [Json.beqFn]
    exact Json.beqKVFn_iff xs _

theorem Json.beqListFn_iff : ∀ (xs ys : List Json), Json.beqListFn xs ys = true ↔ xs = ys
  | [], ys => by cases ys <;> simp [Json.beqListFn]
  | x :: xs, ys => by
    cases ys <;> simp [Json.beqListFn]
    rw [Json.beqFn_iff, Json.beqListFn_iff]

theorem Json.beqKVFn_iff : ∀ (xs ys : List (String × Json)),
    Json.beqKVFn xs ys = true ↔ xs = ys
  | [], ys => by cases ys <;> simp [Json.beqKVFn]
  | (k1, x) :: xs, ys => by
    cases ys with
    | nil => simp [Json.beqKVFn]
    | cons y ys =>
      match y with
      | (k2, v) =>
        simp [Json.beqKVFn]
        rw [Json.beqFn_iff, Json.beqKVFn_iff]

end

instance : DecidableEq Json := fun a b =>
  decidable_of_iff (Json.beqFn a b = true) (Json.beqFn_iff a b)

/-- Python `type(value).__name__` for the modelled value universe. -/
def typeName : Json → String
  | .null => "NoneType"
  | .bool _ => "bool"
  | .int _ => "int"
  | .float _ => "float"
  | .str _ => "str"
  | .arr _ => "list"
  | .obj _ => "dict"

/-- Python truthiness (`if value:`). -/
def pyTruthy : Json → Bool
  | .null => false
  | .bool b => b
  | .int n => n != 0
  | .float q => q != 0
  | .str s => !s.isEmpty
  | .arr xs => !xs.isEmpty
  | .obj kvs => !kvs.isEmpty

mutual

/-- Python `repr`, recursively (containers render via `repr`). -/
def pyrepr : Json → String
  | .null => "None"
  | .bool b => if b then "True" else "False"
  | .int n => toString n
  | .float q => toString q
  | .str s => "'" ++ s ++ "'"
  | .arr xs => "[" ++ pyreprList xs ++ "]"
  | .obj kvs => "\x7b" ++ pyreprKVs kvs ++ "\x7d"

def pyreprList : List Json → String
  | [] => ""
  | [x] => pyrepr x
  | x :: y :: rest => pyrepr x ++ ", " ++ pyreprList (y :: rest)

def pyreprKVs : List (String × Json) → String
  | [] => ""
  | [(k, x)] => "'" ++ k ++ "': " ++ pyrepr x
  | (k, x) :: y :: rest => "'" ++ k ++ "': " ++ pyrepr x ++ ", " ++ pyreprKVs (y :: rest)

end

/-- Python `str()` (differs from `repr` only on strings at top level). -/
def pystr : Json → String
  | .str s => s
  | j => pyrepr j

-- Size measure on Json used for fuel adequacy.
mutual

def jsize : Json → Nat
  | .arr xs => jsizeList xs + 1
  | .obj kvs => jsizeKVs kvs + 1
  | _ => 1

def jsizeList : List Json → Nat
  | [] => 0
  | x :: rest => jsize x + jsizeList rest

def jsizeKVs : List (String × Json) → Nat
  | [] => 0
  | (_, x) :: rest => jsize x + jsizeKVs rest

end

/-- `d.get(key, dflt)` on a value assumed dict-shaped (non-dicts raise in
Python; the validator only reaches this on dict documents). -/
def jget (j : Json) (key : String) (dflt : Json) : Json :=
  match j with
  | .obj kvs => (kvs.lookup key).getD dflt
  | _ => dflt

/-- `d.get(key)` guarded by `isinstance(d, dict)`; `none` is Python `None`. -/
def dictGetOpt (j : Json) (key : String) : Option Json :=
  match j with
  | .obj kvs => kvs.lookup key
  | _ => none

/-- Items of a list-shaped value (non-lists raise on iteration in Python). -/
def jitems : Json → List Json
  | .arr xs => xs
  | _ => []

/-- Python dict insertion: an existing key keeps its position and takes the
new value, a new key is appended. -/
def pyDictInsert (d : List (Json × Json)) (k v : Json) : List (Json × Json) :=
  if d.any (fun p => p.1 = k) then d.map (fun p => if p.1 = k then (k, v) else p)
  else d ++ [(k, v)]

-- `_is_valid_boolean`: isinstance(value, bool)
def is_valid_boolean : Json → Bool
  | .bool _ => true
  | _ => false

/-- `isinstance(value, int)` together with the integer the value compares as:
Python `bool` is a subclass of `int`, so `True`/`False` pass and compare as
`1`/`0`. -/
def pyIntValue : Json → Option Int
  | .int n => some n
  | .bool b => some (if b then 1 else 0)
  | _ => none

-- `_is_valid_int16`: isinstance(value, int) and -32768 <= value <= 32767
def is_valid_int16 (v : Json) : Bool :=
  match pyIntValue v with
  | some n => decide ((-32768 : Int) ≤ n) && decide (n ≤ 32767)
  | none => false

-- `_is_valid_int32`
def is_valid_int32 (v : Json) : Bool :=
  match pyIntValue v with
  | some n => decide ((-2147483648 : Int) ≤ n) && decide (n ≤ 2147483647)
  | none => false

-- `_is_valid_int64`
def is_valid_int64 (v : Json) : Bool :=
  match pyIntValue v with
  | some n => decide ((-9223372036854775808 : Int) ≤ n) && decide (n ≤ 9223372036854775807)
  | none => false

-- `_is_valid_uint16`
def is_valid_uint16 (v : Json) : Bool :=
  match pyIntValue v with
  | some n => decide ((0 : Int) ≤ n) && decide (n ≤ 65535)
  | none => false

-- `_is_valid_uint32`
def is_valid_uint32 (v : Json) : Bool :=
  match pyIntValue v with
  | some n => decide ((0 : Int) ≤ n) && decide (n ≤ 4294967295)
  | none => false

-- `_is_valid_uint64`
def is_valid_uint64 (v : Json) : Bool :=
  match pyIntValue v with
  | some n => decide ((0 : Int) ≤ n) && decide (n ≤ 18446744073709551615)
  | none => false

-- `_is_valid_float`: isinstance(value, (int, float)) — bools included via int
def is_valid_float : Json → Bool
  | .int _ => true
  | .bool _ => true
  | .float _ => true
  | _ => false

-- `_is_valid_double`: same check as float
def is_valid_double : Json → Bool
  | .int _ => true
  | .bool _ => true
  | .float _ => true
  | _ => false

-- `_is_valid_string`: isinstance(value, str)
def is_valid_string : Json → Bool
  | .str _ => true
  | _ => false

/-- `re.match(r"^\d{4}-\d{2}-\d{2}T\d{2}:\d{2}:\d{2}", value)` on the
character list (`\d` modelled as ASCII digits, the only digits appearing in
the validator's inputs). -/
def matchDateTimePrefix (cs : List Char) : Bool :=
  match cs with
  | y1 :: y2 :: y3 :: y4 :: '-' :: mo1 :: mo2 :: '-' :: d1 :: d2 :: 'T' ::
      h1 :: h2 :: ':' :: mi1 :: mi2 :: ':' :: s1 :: s2 :: _ =>
    [y1, y2, y3, y4, mo1, mo2, d1, d2, h1, h2, mi1, mi2, s1, s2].all Char.isDigit
  | _ => false

-- `_is_valid_datetime`
def is_valid_datetime : Json → Bool
  | .str s => matchDateTimePrefix s.data
  | _ => false

/-- The `.*Z$` part of the UtcTime regex: `.` does not cross a newline and
`$` also matches just before one trailing newline (Python `re` semantics). -/
def dotStarZDollar (cs : List Char) : Bool :=
  match cs.reverse with
  | 'Z' :: rest => rest.all (fun c => c != '\n')
  | '\n' :: 'Z' :: rest => rest.all (fun c => c != '\n')
  | _ => false

-- `_is_valid_utctime`: r"^\d{4}-\d{2}-\d{2}T\d{2}:\d{2}:\d{2}.*Z$"
def is_valid_utctime : Json → Bool
  | .str s => matchDateTimePrefix s.data && dotStarZDollar (s.data.drop 19)
  | _ => false

def isHexDigit (c : Char) : Bool :=
  c.isDigit || ('a' ≤ c && c ≤ 'f') || ('A' ≤ c && c ≤ 'F')

/-- The body of the GUID regex: 8-4-4-4-12 hex groups separated by hyphens. -/
def guidShape (cs : List Char) : Bool :=
  cs.length == 36 &&
  (List.range 36).all (fun i =>
    match cs.get? i with
    | some c => if i == 8 || i == 13 || i == 18 || i == 23 then c == '-' else isHexDigit c
    | none => false)

-- `_is_valid_guid`: anchored regex; `$` also matches before one trailing newline
def is_valid_guid : Json → Bool
  | .str s =>
    (match s.data.reverse with
     | '\n' :: rest => guidShape rest.reverse
     | _ => guidShape s.data)
  | _ => false

/-- `ValidationError` dataclass. -/
structure ValidationError where
  path : String
  message : String
  expected : Option String := none
  actual : Option String := none
deriving DecidableEq, Repr

/-- `ValidationResult` dataclass. -/
structure ValidationResult where
  valid : Bool
  errors : List ValidationError := []
  warnings : List String := []
deriving DecidableEq, Repr

/-- `OPC_TYPE_VALIDATORS`: type identifier → (predicate, expected label). -/
def OPC_TYPE_VALIDATORS : List (String × ((Json → Bool) × String)) := [
  ("opc:Boolean", (is_valid_boolean, "boolean")),
  ("opc:Int16", (is_valid_int16, "integer (-32768 to 32767)")),
  ("opc:Int32", (is_valid_int32, "integer (-2147483648 to 2147483647)")),
  ("opc:Int64", (is_valid_int64, "integer (64-bit)")),
  ("opc:UInt16", (is_valid_uint16, "unsigned integer (0 to 65535)")),
  ("opc:UInt32", (is_valid_uint32, "unsigned integer (0 to 4294967295)")),
  ("opc:UInt64", (is_valid_uint64, "unsigned integer (64-bit)")),
  ("opc:Float", (is_valid_float, "float")),
  ("opc:Double", (is_valid_double, "double")),
  ("opc:String", (is_valid_string, "string")),
  ("opc:DateTime", (is_valid_datetime, "ISO 8601 datetime")),
  ("opc:UtcTime", (is_valid_utctime, "ISO 8601 UTC time (ending with Z)")),
  ("opc:Guid", (is_valid_guid, "GUID/UUID"))]

/-- `ProfileValidator._validate_timezone`. -/
def validate_timezone (value : Json) (path : String) : List ValidationError :=
  match value with
  | .obj kvs =>
    (match kvs.lookup "offset" with
     | none => [{ path := path ++ ".offset", message := "Missing required field" }]
     | some ov =>
       if is_valid_int16 ov then []
       else [{ path := path ++ ".offset", message := "Invalid type",
               expected := some "integer (-32768 to 32767)", actual := some (typeName ov) }])
    ++
    (match kvs.lookup "daylightSavingInOffset" with
     | none => [{ path := path ++ ".daylightSavingInOffset", message := "Missing required field" }]
     | some dv =>
       if is_valid_boolean dv then []
       else [{ path := path ++ ".daylightSavingInOffset", message := "Invalid type",
               expected := some "boolean", actual := some (typeName dv) }])
  | _ => [{ path := path, message := "TimeZoneDataType must be an object",
            expected := some "object with offset and daylightSavingInOffset",
            actual := some (typeName value) }]

/-- `ProfileValidator._validate_opc_type`.  The type identifier is the raw
`@id` value; only a string can equal one of the table's keys or the literal
`"opc:TimeZoneDataType"`. -/
def validate_opc_type (value : Json) (opc_type : Json) (path : String) : List ValidationError :=
  match opc_type with
  | .str t =>
    (match OPC_TYPE_VALIDATORS.lookup t with
     | some vd =>
       if vd.1 value then []
       else [{ path := path, message := "Invalid type",
               expected := some vd.2, actual := some (typeName value) }]
     | none =>
       if t = "opc:TimeZoneDataType" then validate_timezone value path
       else [])
  | _ => []

/-- The match test of `_validate_nested_profile`'s resolution loop:
`ns in profile_ref or profile_ref in ns` (bidirectional contiguous-substring
containment; CPython raises for a non-string reference, which the embedding
never reaches on the documents the claims quantify over). -/
def nsMatch (ns : String) (profile_ref : Json) : Bool :=
  match profile_ref with
  | .str r => decide (ns.data <:+: r.data) || decide (r.data <:+: ns.data)
  | _ => false

/-- The resolution loop of `_validate_nested_profile`: first entry of
`referenced_profiles` (in iteration order) that matches wins. -/
def findRef : List (String × Json) → Json → Option Json
  | [], _ => none
  | (ns, profile) :: rest, profile_ref =>
    if nsMatch ns profile_ref then some profile else findRef rest profile_ref

/-- Parsed `ProfileValidator` state (the fields `__init__`/`_parse_profile`
store on `self`).  `ns` is Python's `self.namespace`. -/
structure PValidator where
  profile : Json
  referenced_profiles : List (String × Json)
  is_data_type : Bool
  fields : List (Json × Json)
  ns : Json
  context : Json
deriving Repr

/-- The dict comprehensions of `_parse_profile`: key = `f.get(nameKey)`
(Python `None` when absent is `Json.null`). -/
def buildFields (items : List Json) (nameKey : String) : List (Json × Json) :=
  items.foldl (fun d f => pyDictInsert d (jget f nameKey .null) f) []

/-- `ProfileValidator.__init__` + `_parse_profile`. -/
def mkValidator (profile : Json) (referenced_profiles : List (String × Json)) : PValidator :=
  let is_data_type := pyTruthy (jget profile "cesmii:isDataType" (.bool false))
  let fields :=
    if is_data_type then
      buildFields (jitems (jget profile "cesmii:fields" (.arr []))) "cesmii:fieldName"
    else
      buildFields (jitems (jget profile "cesmii:attributes" (.arr []))) "cesmii:browseName"
  { profile := profile
    referenced_profiles := referenced_profiles
    is_data_type := is_data_type
    fields := fields
    ns := jget profile "@id" (.str "")
    context := jget profile "@context" (.obj []) }

/-- `ProfileValidator._get_type_from_context`: `@context` lookup for the
field key, returning its `@type` when the entry is a dict. -/
def get_type_from_context (v : PValidator) (field_name : Json) : Option Json :=
  let ctx_entry : Option Json :=
    match v.context, field_name with
    | .obj kvs, .str s => kvs.lookup s
    | _, _ => none
  match ctx_entry with
  | some (.obj kvs) => kvs.lookup "@type"
  | _ => none

/-- Python truthiness test on an optional value (`if x:` where `x` may be
`None`): keeps the value only when it is truthy. -/
def truthyOpt : Option Json → Option Json
  | some j => if pyTruthy j then some j else none
  | none => none

/-- `field_name in payload` / `payload[field_name]`: the payload is a JSON
object, so only a string field key can be present. -/
def payloadLookup (kvs : List (String × Json)) (field_name : Json) : Option Json :=
  match field_name with
  | .str s => kvs.lookup s
  | _ => none

/-- The `$namespace` check at the top of `validate`. -/
def nsWarnings (v : PValidator) (kvs : List (String × Json)) : List String :=
  let payload_ns := (kvs.lookup "$namespace").getD (.str "")
  if pyTruthy payload_ns && pyTruthy v.ns && payload_ns ≠ v.ns then
    ["Payload namespace '" ++ pystr payload_ns ++ "' doesn't match profile namespace '"
      ++ pystr v.ns ++ "'"]
  else []

/-- `ProfileValidator._validate_nested_profile`; `rec` is the recursive
reference to `validate` (fuelled one level down). -/
def validateNestedF (rec : PValidator → Json → String → Option ValidationResult)
    (refs : List (String × Json)) (value profile_ref : Json) (path : String) :
    Option (List ValidationError) :=
  match findRef refs profile_ref with
  | none =>
    some [{ path := path,
            message := "Could not validate against referenced profile (not loaded): "
              ++ pystr profile_ref }]
  | some ref_profile =>
    match rec (mkValidator ref_profile refs) value path with
    | none => none
    | some result => some result.errors

/-- The `for i, item in enumerate(value)` loop of `validate`'s array branch;
`pref`/`otype` are the already-truthiness-filtered `profile_ref`/`opc_type`. -/
def validateItemsF (rec : PValidator → Json → String → Option ValidationResult)
    (refs : List (String × Json)) :
    Nat → List Json → Option Json → Option Json → String → Option (List ValidationError)
  | _, [], _, _, _ => some []
  | i, item :: rest, pref, otype, path =>
    let item_path := path ++ "[" ++ toString i ++ "]"
    match (match pref with
           | some pr => validateNestedF rec refs item pr item_path
           | none =>
             match otype with
             | some t => some (validate_opc_type item t item_path)
             | none => some []),
          validateItemsF rec refs (i + 1) rest pref otype path with
    | some errs, some more => some (errs ++ more)
    | _, _ => none

/-- One iteration of `validate`'s field loop: type resolution and the
array/nested/primitive dispatch for a single field. -/
def validateFieldF (rec : PValidator → Json → String → Option ValidationResult)
    (v : PValidator) (kvs : List (String × Json)) (field_name field_def : Json)
    (pfx : String) : Option (List ValidationError) :=
  let path := if pfx = "" then pystr field_name
              else pfx ++ "." ++ pystr field_name
  match payloadLookup kvs field_name with
  | none => some []
  | some value =>
    let data_type_def := jget field_def "cesmii:dataType" (.obj [])
    let opc_type0 := dictGetOpt data_type_def "@id"
    let opc_type : Option Json :=
      match truthyOpt opc_type0 with
      | some t => some t
      | none => get_type_from_context v field_name
    let is_array := pyTruthy (jget field_def "cesmii:isArray" (.bool false))
    let profile_ref := dictGetOpt data_type_def "cesmii:profileReference"
    if is_array then
      match value with
      | .arr items =>
        validateItemsF rec v.referenced_profiles 0 items
          (truthyOpt profile_ref) (truthyOpt opc_type) path
      | _ =>
        some [{ path := path, message := "Expected array",
                expected := some "array", actual := some (typeName value) }]
    else
      match truthyOpt profile_ref with
      | some pr => validateNestedF rec v.referenced_profiles value pr path
      | none =>
        match truthyOpt opc_type with
        | some t => some (validate_opc_type value t path)
        | none => some []

/-- The `for field_name, field_def in self.fields.items()` loop of
`validate`, accumulating errors in field order. -/
def validateFieldsF (rec : PValidator → Json → String → Option ValidationResult)
    (v : PValidator) (kvs : List (String × Json)) :
    List (Json × Json) → String → Option (List ValidationError)
  | [], _ => some []
  | (field_name, field_def) :: rest, pfx =>
    match validateFieldF rec v kvs field_name field_def pfx,
          validateFieldsF rec v kvs rest pfx with
    | some errs, some more => some (errs ++ more)
    | _, _ => none

/-- `ProfileValidator.validate(payload, pfx)`, fuelled: `none` means
the fuel ran out; one unit of fuel is consumed at each entry to `validate`,
and the nested-profile recursion runs on the remaining fuel. -/
def validateFuel : Nat → PValidator → Json → String → Option ValidationResult
  | 0, _, _, _ => none
  | Nat.succ n, v, payload, pfx =>
    match payload with
    | .obj kvs =>
      (match validateFieldsF (validateFuel n) v kvs v.fields pfx with
       | none => none
       | some errors =>
         some { valid := errors.isEmpty, errors := errors, warnings := nsWarnings v kvs })
    | _ =>
      some { valid := false,
             errors := [{ path := if pfx = "" then "$" else pfx,
                          message := "Payload must be an object",
                          expected := some "object", actual := some (typeName payload) }],
             warnings := [] }

/-! ### Helper lemmas -/

theorem jsize_pos : ∀ (j : Json), 1 ≤ jsize j := by
  intro j
  cases j <;> simp [jsize]

theorem jsize_lookup : ∀ (kvs : List (String × Json)) (s : String) (v : Json),
    kvs.lookup s = some v → jsize v ≤ jsizeKVs kvs := by
  intro kvs
  induction kvs with
  | nil => intro s v h; simp [List.lookup] at h
  | cons p rest ih =>
    intro s v h
    match p with
    | (k, x) =>
      by_cases hk : s = k
      · simp [List.lookup, hk] at h
        subst h
        simp [jsizeKVs]
      · have hbeq : (s == k) = false := beq_eq_false_iff_ne.mpr hk
        simp [List.lookup, hbeq] at h
        have := ih s v h
        simp [jsizeKVs]
        omega

theorem jsize_payloadLookup (kvs : List (String × Json)) (fk v : Json)
    (h : payloadLookup kvs fk = some v) : jsize v ≤ jsizeKVs kvs := by
  cases fk <;> simp [payloadLookup] at h
  exact jsize_lookup kvs _ v h

theorem jsize_mem : ∀ (xs : List Json) (x : Json), x ∈ xs → jsize x ≤ jsizeList xs := by
  intro xs
  induction xs with
  | nil => intro x h; simp at h
  | cons y rest ih =>
    intro x h
    rcases List.mem_cons.mp h with h | h
    · subst h; simp [jsizeList]
    · have := ih x h; simp [jsizeList]; omega

theorem findRef_eq_none : ∀ (refs : List (String × Json)) (r : Json),
    (∀ p ∈ refs, nsMatch p.1 r = false) → findRef refs r = none := by
  intro refs
  induction refs with
  | nil => intro r _; simp [findRef]
  | cons p rest ih =>
    intro r h
    match p with
    | (ns, profile) =>
      have h1 : nsMatch ns r = false := h (ns, profile) (List.mem_cons_self _ _)
      simp [findRef, h1]
      exact ih r (fun q hq => h q (List.mem_cons_of_mem _ hq))

/-! ### Fuel adequacy: validation always terminates on finite payloads -/

theorem validateNestedF_isSome (rec : PValidator → Json → String → Option ValidationResult)
    (refs : List (String × Json)) (value pr : Json) (path : String)
    (ih : ∀ (v' : PValidator) (pre' : String), (rec v' value pre').isSome = true) :
    (validateNestedF rec refs value pr path).isSome = true := by
  rw [validateNestedF]
  rcases h : findRef refs pr with _ | rp
  · simp
  · have h2 := ih (mkValidator rp refs) path
    rcases h3 : rec (mkValidator rp refs) value path with _ | r
    · rw [h3] at h2; simp at h2
    · simp [h3]

theorem validateItemsF_isSome (rec : PValidator → Json → String → Option ValidationResult)
    (refs : List (String × Json)) :
    ∀ (items : List Json) (i : Nat) (pref otype : Option Json) (path : String),
    (∀ item ∈ items, ∀ (v' : PValidator) (pre' : String), (rec v' item pre').isSome = true) →
    (validateItemsF rec refs i items pref otype path).isSome = true := by
  intro items
  induction items with
  | nil => intro i pref otype path _; simp [validateItemsF]
  | cons item rest ih =>
    intro i pref otype path hmem
    have htail := ih (i + 1) pref otype path
      (fun it hit v' pre' => hmem it (List.mem_cons_of_mem _ hit) v' pre')
    simp only [validateItemsF]
    rcases pref with _ | pr
    · rcases otype with _ | t
      · rcases e2 : validateItemsF rec refs (i + 1) rest none none path with _ | more
        · rw [e2] at htail; simp at htail
        · simp [e2]
      · rcases e2 : validateItemsF rec refs (i + 1) rest none (some t) path with _ | more
        · rw [e2] at htail; simp at htail
        · simp [e2]
    · have hhead := validateNestedF_isSome rec refs item pr (path ++ "[" ++ toString i ++ "]")
        (fun v' pre' => hmem item (List.mem_cons_self _ _) v' pre')
      rcases e1 : validateNestedF rec refs item pr (path ++ "[" ++ toString i ++ "]") with _ | errs
      · rw [e1] at hhead; simp at hhead
      · rcases e2 : validateItemsF rec refs (i + 1) rest (some pr) otype path with _ | more
        · rw [e2] at htail; simp at htail
        · simp [e1, e2]

theorem validateFieldF_isSome (rec : PValidator → Json → String → Option ValidationResult)
    (v : PValidator) (kvs : List (String × Json)) (fk fdef : Json) (pre : String)
    (ih : ∀ (j : Json), jsize j ≤ jsizeKVs kvs → ∀ (v' : PValidator) (pre' : String),
        (rec v' j pre').isSome = true) :
    (validateFieldF rec v kvs fk fdef pre).isSome = true := by
  rw [validateFieldF]
  rcases hl : payloadLookup kvs fk with _ | value
  · simp
  · have hv : jsize value ≤ jsizeKVs kvs := jsize_payloadLookup kvs fk value hl
    simp only
    split
    · -- array branch
      split
      · -- value is a list
        rename_i a items
        apply validateItemsF_isSome
        intro item hitem v' pre'
        apply ih
        have h1 : jsize item ≤ jsizeList items := jsize_mem items item hitem
        have h2 : jsize (Json.arr items) = jsizeList items + 1 := by simp [jsize]
        omega
      · simp
    · -- non-array branch
      split
      · apply validateNestedF_isSome
        intro v' pre'
        exact ih value hv v' pre'
      · split <;> simp

theorem validateFieldsF_isSome (rec : PValidator → Json → String → Option ValidationResult)
    (v : PValidator) (kvs : List (String × Json)) (pre : String)
    (ih : ∀ (j : Json), jsize j ≤ jsizeKVs kvs → ∀ (v' : PValidator) (pre' : String),
        (rec v' j pre').isSome = true) :
    ∀ (flds : List (Json × Json)), (validateFieldsF rec v kvs flds pre).isSome = true := by
  intro flds
  induction flds with
  | nil => simp [validateFieldsF]
  | cons fd rest ihl =>
    match fd with
    | (fk, fdef) =>
      have h1 := validateFieldF_isSome rec v kvs fk fdef pre ih
      rw [validateFieldsF]
      rcases e1 : validateFieldF rec v kvs fk fdef pre with _ | errs
      · rw [e1] at h1; simp at h1
      · rcases e2 : validateFieldsF rec v kvs rest pre with _ | more
        · rw [e2] at ihl; simp at ihl
        · simp [e1, e2]

/-- Validation terminates on every payload: fuel at least `jsize payload`
always suffices, whatever the profile graph looks like. -/
theorem validateFuel_isSome : ∀ (n : Nat) (v : PValidator) (payload : Json) (pre : String),
    jsize payload ≤ n → (validateFuel n v payload pre).isSome = true := by
  intro n
  induction n with
  | zero =>
    intro v payload pre h
    exfalso
    have := jsize_pos payload
    omega
  | succ n ih =>
    intro v payload pre h
    cases payload with
    | obj kvs =>
      have hkv : jsizeKVs kvs ≤ n := by
        have : jsize (Json.obj kvs) = jsizeKVs kvs + 1 := by simp [jsize]
        omega
      have ihn : ∀ (j : Json), jsize j ≤ jsizeKVs kvs →
          ∀ (v' : PValidator) (pre' : String), (validateFuel n v' j pre').isSome = true :=
        fun j hj v' pre' => ih v' j pre' (by omega)
      have hf := validateFieldsF_isSome (validateFuel n) v kvs pre ihn v.fields
      rw [validateFuel]
      rcases e : validateFieldsF (validateFuel n) v kvs v.fields pre with _ | errs
      · rw [e] at hf; simp at hf
      · simp [e]
    | null => simp [validateFuel]
    | bool b => simp [validateFuel]
    | int m => simp [validateFuel]
    | float q => simp [validateFuel]
    | str s => simp [validateFuel]
    | arr xs => simp [validateFuel]

theorem validateItemsF_otype_irrelevant
    (rec : PValidator → Json → String → Option ValidationResult)
    (refs : List (String × Json)) :
    ∀ (items : List Json) (i : Nat) (pr : Json) (o1 o2 : Option Json) (path : String),
    validateItemsF rec refs i items (some pr) o1 path
      = validateItemsF rec refs i items (some pr) o2 path := by
  intro items
  induction items with
  | nil => intro i pr o1 o2 path; simp [validateItemsF]
  | cons item rest ih =>
    intro i pr o1 o2 path
    simp only [validateItemsF]
    rw [ih (i + 1) pr o1 o2 path]

/-! ### Claim theorems -/

/-- C7: the TimeZoneDataType check runs its two sub-checks independently
(never short-circuiting): `{"offset": 99999, "daylightSavingInOffset": false}`
yields exactly one error, at the `offset` sub-path, and none for
`daylightSavingInOffset`; and when both sub-fields are bad, both errors
appear. -/
theorem C7_timezone_offset_out_of_range (path : String) :
    validate_timezone (.obj [("offset", .int 99999), ("daylightSavingInOffset", .bool false)]) path
      = [{ path := path ++ ".offset", message := "Invalid type",
           expected := some "integer (-32768 to 32767)", actual := some "int" }] ∧
    validate_timezone (.obj [("offset", .int 99999), ("daylightSavingInOffset", .int 5)]) path
      = [{ path := path ++ ".offset", message := "Invalid type",
           expected := some "integer (-32768 to 32767)", actual := some "int" },
         { path := path ++ ".daylightSavingInOffset", message := "Invalid type",
           expected := some "boolean", actual := some "int" }] :=
  ⟨rfl, rfl⟩

/-- C8: `"2026-01-16T14:02:37Z"` passes the UtcTime predicate;
`"2026-01-16T14:02:37"` (no trailing `Z`) fails UtcTime but passes the plain
DateTime predicate. -/
theorem C8_utc_suffix :
    is_valid_utctime (.str "2026-01-16T14:02:37Z") = true ∧
    is_valid_utctime (.str "2026-01-16T14:02:37") = false ∧
    is_valid_datetime (.str "2026-01-16T14:02:37") = true := by
  decide

/-- C2 counterexample: the claim says every boolean is rejected by the six
integer-typed primitive checks with an 'Invalid type' error, but Python's
`isinstance(value, int)` accepts booleans (`bool` subclasses `int`), so
`True` passes `_is_valid_int16` and the primitive check emits no error. -/
theorem C2_counterexample :
    is_valid_int16 (.bool true) = true ∧
    validate_opc_type (.bool true) (.str "opc:Int16") "Field" = [] := by
  decide

/-- C2 (amended): every boolean value is ACCEPTED by each of the six
integer-typed primitive predicates (Int16/Int32/Int64/UInt16/UInt32/UInt64),
because Python booleans are instances of `int` comparing as 0/1, which lies
in all six ranges; hence the primitive type check on a boolean against any
of those six identifiers produces no error at all. -/
theorem C2_bools_pass_integer_checks (b : Bool) (path : String) :
    is_valid_int16 (.bool b) = true ∧ is_valid_int32 (.bool b) = true ∧
    is_valid_int64 (.bool b) = true ∧ is_valid_uint16 (.bool b) = true ∧
    is_valid_uint32 (.bool b) = true ∧ is_valid_uint64 (.bool b) = true ∧
    validate_opc_type (.bool b) (.str "opc:Int16") path = [] ∧
    validate_opc_type (.bool b) (.str "opc:Int32") path = [] ∧
    validate_opc_type (.bool b) (.str "opc:Int64") path = [] ∧
    validate_opc_type (.bool b) (.str "opc:UInt16") path = [] ∧
    validate_opc_type (.bool b) (.str "opc:UInt32") path = [] ∧
    validate_opc_type (.bool b) (.str "opc:UInt64") path = [] := by
  cases b <;>
    exact ⟨rfl, rfl, rfl, rfl, rfl, rfl, rfl, rfl, rfl, rfl, rfl, rfl⟩

/-- C10: the primitive-type check fires a predicate only for the exact
`opc:`-prefixed identifiers of the fixed table (or `opc:TimeZoneDataType`):
any other string identifier — in particular a bare table name without the
`opc:` prefix such as `"Int16"` or `"Boolean"` — produces no error for any
value. -/
theorem C10_unknown_type_identifiers_pass (value : Json) (path : String) :
    (∀ t : String,
      t ∉ (["opc:Boolean", "opc:Int16", "opc:Int32", "opc:Int64", "opc:UInt16",
            "opc:UInt32", "opc:UInt64", "opc:Float", "opc:Double", "opc:String",
            "opc:DateTime", "opc:UtcTime", "opc:Guid", "opc:TimeZoneDataType"] : List String) →
      validate_opc_type value (.str t) path = []) ∧
    validate_opc_type value (.str "Int16") path = [] ∧
    validate_opc_type value (.str "Boolean") path = [] ∧
    validate_opc_type value (.str "TimeZoneDataType") path = [] := by
  refine ⟨?_, rfl, rfl, rfl⟩
  intro t ht
  simp only [List.mem_cons, List.not_mem_nil, or_false, not_or] at ht
  obtain ⟨h1, h2, h3, h4, h5, h6, h7, h8, h9, h10, h11, h12, h13, h14⟩ := ht
  have e1 : (t == "opc:Boolean") = false := beq_eq_false_iff_ne.mpr h1
  have e2 : (t == "opc:Int16") = false := beq_eq_false_iff_ne.mpr h2
  have e3 : (t == "opc:Int32") = false := beq_eq_false_iff_ne.mpr h3
  have e4 : (t == "opc:Int64") = false := beq_eq_false_iff_ne.mpr h4
  have e5 : (t == "opc:UInt16") = false := beq_eq_false_iff_ne.mpr h5
  have e6 : (t == "opc:UInt32") = false := beq_eq_false_iff_ne.mpr h6
  have e7 : (t == "opc:UInt64") = false := beq_eq_false_iff_ne.mpr h7
  have e8 : (t == "opc:Float") = false := beq_eq_false_iff_ne.mpr h8
  have e9 : (t == "opc:Double") = false := beq_eq_false_iff_ne.mpr h9
  have e10 : (t == "opc:String") = false := beq_eq_false_iff_ne.mpr h10
  have e11 : (t == "opc:DateTime") = false := beq_eq_false_iff_ne.mpr h11
  have e12 : (t == "opc:UtcTime") = false := beq_eq_false_iff_ne.mpr h12
  have e13 : (t == "opc:Guid") = false := beq_eq_false_iff_ne.mpr h13
  simp [validate_opc_type, OPC_TYPE_VALIDATORS, List.lookup,
    e1, e2, e3, e4, e5, e6, e7, e8, e9, e10, e11, e12, e13, h14]

/-- Witness for C10 at a concrete custom type identifier. -/
theorem C10_witness :
    validate_opc_type (.int 5) (.str "custom:Widget") "p" = [] :=
  (C10_unknown_type_identifiers_pass (.int 5) "p").1 "custom:Widget" (by decide)

/-- C1: every `ValidationResult` that `validate` returns satisfies
`valid = errors.isEmpty`, and on the early non-object return the result is
additionally `valid = false` with exactly one error. -/
theorem C1_valid_iff_errors_empty (n : Nat) (v : PValidator) (payload : Json)
    (pre : String) (r : ValidationResult)
    (h : validateFuel n v payload pre = some r) :
    r.valid = r.errors.isEmpty ∧
    ((∀ kvs, payload ≠ Json.obj kvs) → r.valid = false ∧ r.errors.length = 1) := by
  cases n with
  | zero => simp [validateFuel] at h
  | succ n =>
    cases payload with
    | obj kvs =>
      simp only [validateFuel] at h
      rcases e : validateFieldsF (validateFuel n) v kvs v.fields pre with _ | errs <;>
        rw [e] at h
      · simp at h
      · simp only [Option.some.injEq] at h
        subst h
        exact ⟨rfl, fun hno => absurd rfl (hno kvs)⟩
    | null =>
      simp only [validateFuel, Option.some.injEq] at h
      subst h
      exact ⟨rfl, fun _ => ⟨rfl, rfl⟩⟩
    | bool b =>
      simp only [validateFuel, Option.some.injEq] at h
      subst h
      exact ⟨rfl, fun _ => ⟨rfl, rfl⟩⟩
    | int m =>
      simp only [validateFuel, Option.some.injEq] at h
      subst h
      exact ⟨rfl, fun _ => ⟨rfl, rfl⟩⟩
    | float q =>
      simp only [validateFuel, Option.some.injEq] at h
      subst h
      exact ⟨rfl, fun _ => ⟨rfl, rfl⟩⟩
    | str s =>
      simp only [validateFuel, Option.some.injEq] at h
      subst h
      exact ⟨rfl, fun _ => ⟨rfl, rfl⟩⟩
    | arr xs =>
      simp only [validateFuel, Option.some.injEq] at h
      subst h
      exact ⟨rfl, fun _ => ⟨rfl, rfl⟩⟩

/-- Witness for C1 at a concrete non-object payload. -/
theorem C1_witness :
    (({ valid := false,
        errors := [{ path := "$", message := "Payload must be an object",
                     expected := some "object", actual := some "int" }],
        warnings := [] } : ValidationResult).valid
      = ({ valid := false,
           errors := [{ path := "$", message := "Payload must be an object",
                        expected := some "object", actual := some "int" }],
           warnings := [] } : ValidationResult).errors.isEmpty) ∧
    ((∀ kvs, Json.int 3 ≠ Json.obj kvs) →
      ({ valid := false,
         errors := [{ path := "$", message := "Payload must be an object",
                      expected := some "object", actual := some "int" }],
         warnings := [] } : ValidationResult).valid = false ∧
      ({ valid := false,
         errors := [{ path := "$", message := "Payload must be an object",
                      expected := some "object", actual := some "int" }],
         warnings := [] } : ValidationResult).errors.length = 1) :=
  C1_valid_iff_errors_empty 1 (mkValidator (Json.obj []) []) (Json.int 3) "" _ (by decide)

/-- C5: a field declared with truthy `cesmii:isArray` whose payload value is
not a list contributes exactly one "Expected array" error (expected
`"array"`, actual the value's runtime type name) and no per-element errors,
whatever the rest of the field definition says. -/
theorem C5_expected_array (n : Nat) (v : PValidator) (kvs : List (String × Json))
    (fk fdef value : Json) (pre : String)
    (hf : v.fields = [(fk, fdef)])
    (hl : payloadLookup kvs fk = some value)
    (ha : pyTruthy (jget fdef "cesmii:isArray" (.bool false)) = true)
    (hn : ∀ items, value ≠ Json.arr items) :
    validateFuel (n + 1) v (Json.obj kvs) pre =
      some { valid := false,
             errors := [{ path := if pre = "" then pystr fk else pre ++ "." ++ pystr fk,
                          message := "Expected array", expected := some "array",
                          actual := some (typeName value) }],
             warnings := nsWarnings v kvs } := by
  simp only [validateFuel, hf, validateFieldsF, validateFieldF, hl, ha]
  cases value with
  | arr items => exact absurd rfl (hn items)
  | null => simp [validateFieldsF]
  | bool b => simp [validateFieldsF]
  | int m => simp [validateFieldsF]
  | float q => simp [validateFieldsF]
  | str s => simp [validateFieldsF]
  | obj o => simp [validateFieldsF]

/-- Witness for C5 at a concrete validator, field and non-list value. -/
theorem C5_witness :
    validateFuel 1
      ⟨Json.obj [], [], false,
        [(Json.str "Items",
          Json.obj [("cesmii:isArray", Json.bool true),
                    ("cesmii:dataType", Json.obj [("@id", Json.str "opc:Int16")])])],
        Json.str "", Json.obj []⟩
      (Json.obj [("Items", Json.str "not-an-array")]) "" =
      some { valid := false,
             errors := [{ path := "Items", message := "Expected array",
                          expected := some "array", actual := some "str" }],
             warnings := [] } :=
  C5_expected_array 0
    ⟨Json.obj [], [], false,
      [(Json.str "Items",
        Json.obj [("cesmii:isArray", Json.bool true),
                  ("cesmii:dataType", Json.obj [("@id", Json.str "opc:Int16")])])],
      Json.str "", Json.obj []⟩
    [("Items", Json.str "not-an-array")]
    (Json.str "Items")
    (Json.obj [("cesmii:isArray", Json.bool true),
               ("cesmii:dataType", Json.obj [("@id", Json.str "opc:Int16")])])
    (Json.str "not-an-array") ""
    rfl (by decide) (by decide) (fun _ h => Json.noConfusion h)

/-- C3: when a field declares a (truthy) `profileReference` that no entry of
`referenced_profiles` matches under the bidirectional substring rule,
validating a payload containing that field yields exactly one error for it,
whose message contains the literal text "not loaded" and the reference
string, and the overall result is invalid. -/
theorem C3_unresolved_reference (n : Nat) (v : PValidator) (kvs : List (String × Json))
    (fname ref : String) (value : Json) (pre : String)
    (hf : v.fields = [(Json.str fname,
        Json.obj [("cesmii:dataType",
          Json.obj [("cesmii:profileReference", Json.str ref)])])])
    (hl : kvs.lookup fname = some value)
    (href : ref ≠ "")
    (hmatch : ∀ p ∈ v.referenced_profiles, nsMatch p.1 (Json.str ref) = false) :
    validateFuel (n + 1) v (Json.obj kvs) pre =
      some { valid := false,
             errors := [{ path := if pre = "" then fname else pre ++ "." ++ fname,
                          message := "Could not validate against referenced profile (not loaded): "
                            ++ ref }],
             warnings := nsWarnings v kvs } ∧
    ("not loaded".data <:+:
      ("Could not validate against referenced profile (not loaded): " ++ ref).data) ∧
    (ref.data <:+:
      ("Could not validate against referenced profile (not loaded): " ++ ref).data) := by
  refine ⟨?_, ?_, ?_⟩
  · have hfr := findRef_eq_none v.referenced_profiles (Json.str ref) hmatch
    have hb : ref.isEmpty = false := by
      cases hb : ref.isEmpty
      · rfl
      · exact absurd ((String.isEmpty_iff ref).mp hb) href
    simp only [validateFuel, hf, validateFieldsF, validateFieldF, payloadLookup, hl]
    simp [jget, dictGetOpt, List.lookup, truthyOpt, hb, validateNestedF, hfr,
      pystr, pyTruthy, validateFieldsF]
  · rw [String.data_append]
    exact ((by decide :
      "not loaded".data <:+:
        "Could not validate against referenced profile (not loaded): ".data)).trans
      (List.prefix_append _ ref.data).isInfix
  · rw [String.data_append]
    exact (List.suffix_append _ _).isInfix

/-- Witness for C3 at a concrete validator, reference and payload. -/
theorem C3_witness :
    validateFuel 1
      ⟨Json.obj [], [("zzz:Other", Json.obj [])], false,
        [(Json.str "F",
          Json.obj [("cesmii:dataType",
            Json.obj [("cesmii:profileReference", Json.str "ns:External")])])],
        Json.str "", Json.obj []⟩
      (Json.obj [("F", Json.int 7)]) "" =
      some { valid := false,
             errors := [{ path := "F",
                          message := "Could not validate against referenced profile (not loaded): "
                            ++ "ns:External" }],
             warnings := [] } ∧
    ("not loaded".data <:+:
      ("Could not validate against referenced profile (not loaded): " ++ "ns:External").data) ∧
    ("ns:External".data <:+:
      ("Could not validate against referenced profile (not loaded): " ++ "ns:External").data) :=
  C3_unresolved_reference 0
    ⟨Json.obj [], [("zzz:Other", Json.obj [])], false,
      [(Json.str "F",
        Json.obj [("cesmii:dataType",
          Json.obj [("cesmii:profileReference", Json.str "ns:External")])])],
      Json.str "", Json.obj []⟩
    [("F", Json.int 7)] "F" "ns:External" (Json.int 7) ""
    rfl (by decide) (by decide) (by decide)

theorem validateFieldF_ref_dispatch
    (rec : PValidator → Json → String → Option ValidationResult)
    (v : PValidator) (kvs : List (String × Json)) (fk dt : Json) (ref : String)
    (ia : Bool) (pre : String)
    (hdt : dictGetOpt dt "cesmii:profileReference" = some (Json.str ref))
    (href : ref ≠ "") :
    validateFieldF rec v kvs fk
      (Json.obj [("cesmii:dataType", dt), ("cesmii:isArray", Json.bool ia)]) pre =
    match payloadLookup kvs fk with
    | none => some []
    | some value =>
      if ia then
        match value with
        | Json.arr items =>
          validateItemsF rec v.referenced_profiles 0 items (some (Json.str ref)) none
            (if pre = "" then pystr fk else pre ++ "." ++ pystr fk)
        | _ =>
          some [{ path := if pre = "" then pystr fk else pre ++ "." ++ pystr fk,
                  message := "Expected array", expected := some "array",
                  actual := some (typeName value) }]
      else
        validateNestedF rec v.referenced_profiles value (Json.str ref)
          (if pre = "" then pystr fk else pre ++ "." ++ pystr fk) := by
  have hb : ref.isEmpty = false := by
    cases hb : ref.isEmpty
    · rfl
    · exact absurd ((String.isEmpty_iff ref).mp hb) href
  simp only [validateFieldF]
  rcases hl : payloadLookup kvs fk with _ | value
  · rfl
  · cases ia with
    | false =>
      simp [jget, List.lookup, hdt, truthyOpt, pyTruthy, hb]
    | true =>
      cases value with
      | arr items =>
        simp [jget, List.lookup, hdt, truthyOpt, pyTruthy, hb]
        apply validateItemsF_otype_irrelevant
      | null => simp [jget, List.lookup, truthyOpt, pyTruthy]
      | bool b => simp [jget, List.lookup, truthyOpt, pyTruthy]
      | int m => simp [jget, List.lookup, truthyOpt, pyTruthy]
      | float q => simp [jget, List.lookup, truthyOpt, pyTruthy]
      | str s => simp [jget, List.lookup, truthyOpt, pyTruthy]
      | obj o => simp [jget, List.lookup, truthyOpt, pyTruthy]

/-- C4: a field definition declaring both a primitive `@id` and a (truthy)
`profileReference` is dispatched only to nested-profile validation: its
result is identical to the same definition without the `@id`, the non-array
case goes straight to `_validate_nested_profile`, and the array case runs
each element through nested-profile validation only (the primitive checker
is never consulted). -/
theorem C4_nested_reference_priority
    (rec : PValidator → Json → String → Option ValidationResult)
    (v : PValidator) (kvs : List (String × Json)) (fk tid : Json) (ref : String)
    (ia : Bool) (pre : String) (href : ref ≠ "") :
    (validateFieldF rec v kvs fk
        (Json.obj [("cesmii:dataType",
            Json.obj [("@id", tid), ("cesmii:profileReference", Json.str ref)]),
          ("cesmii:isArray", Json.bool ia)]) pre
      = validateFieldF rec v kvs fk
        (Json.obj [("cesmii:dataType",
            Json.obj [("cesmii:profileReference", Json.str ref)]),
          ("cesmii:isArray", Json.bool ia)]) pre) ∧
    (∀ value, payloadLookup kvs fk = some value → ia = false →
      validateFieldF rec v kvs fk
        (Json.obj [("cesmii:dataType",
            Json.obj [("@id", tid), ("cesmii:profileReference", Json.str ref)]),
          ("cesmii:isArray", Json.bool ia)]) pre
        = validateNestedF rec v.referenced_profiles value (Json.str ref)
            (if pre = "" then pystr fk else pre ++ "." ++ pystr fk)) ∧
    (∀ items, payloadLookup kvs fk = some (Json.arr items) → ia = true →
      validateFieldF rec v kvs fk
        (Json.obj [("cesmii:dataType",
            Json.obj [("@id", tid), ("cesmii:profileReference", Json.str ref)]),
          ("cesmii:isArray", Json.bool ia)]) pre
        = validateItemsF rec v.referenced_profiles 0 items (some (Json.str ref)) none
            (if pre = "" then pystr fk else pre ++ "." ++ pystr fk)) := by
  have d1 := validateFieldF_ref_dispatch rec v kvs fk
    (Json.obj [("@id", tid), ("cesmii:profileReference", Json.str ref)]) ref ia pre rfl href
  have d2 := validateFieldF_ref_dispatch rec v kvs fk
    (Json.obj [("cesmii:profileReference", Json.str ref)]) ref ia pre rfl href
  refine ⟨?_, ?_, ?_⟩
  · rw [d1, d2]
  · intro value hl hia
    subst hia
    rw [d1, hl]
    simp
  · intro items hl hia
    subst hia
    rw [d1, hl]
    simp

/-- Witness for C4 at a concrete field definition and payload. -/
theorem C4_witness :
    (validateFieldF (fun _ _ _ => none)
        ⟨Json.obj [], [], false, [], Json.str "", Json.obj []⟩
        [("f", Json.int 1)] (Json.str "f")
        (Json.obj [("cesmii:dataType",
            Json.obj [("@id", Json.str "opc:Int16"),
                      ("cesmii:profileReference", Json.str "ns:F")]),
          ("cesmii:isArray", Json.bool false)]) ""
      = validateFieldF (fun _ _ _ => none)
        ⟨Json.obj [], [], false, [], Json.str "", Json.obj []⟩
        [("f", Json.int 1)] (Json.str "f")
        (Json.obj [("cesmii:dataType",
            Json.obj [("cesmii:profileReference", Json.str "ns:F")]),
          ("cesmii:isArray", Json.bool false)]) "") ∧
    (∀ value, payloadLookup [("f", Json.int 1)] (Json.str "f") = some value → false = false →
      validateFieldF (fun _ _ _ => none)
        ⟨Json.obj [], [], false, [], Json.str "", Json.obj []⟩
        [("f", Json.int 1)] (Json.str "f")
        (Json.obj [("cesmii:dataType",
            Json.obj [("@id", Json.str "opc:Int16"),
                      ("cesmii:profileReference", Json.str "ns:F")]),
          ("cesmii:isArray", Json.bool false)]) ""
        = validateNestedF (fun _ _ _ => none)
            (⟨Json.obj [], [], false, [], Json.str "", Json.obj []⟩ : PValidator).referenced_profiles
            value (Json.str "ns:F")
            (if "" = "" then pystr (Json.str "f") else "" ++ "." ++ pystr (Json.str "f"))) ∧
    (∀ items, payloadLookup [("f", Json.int 1)] (Json.str "f") = some (Json.arr items) →
        false = true →
      validateFieldF (fun _ _ _ => none)
        ⟨Json.obj [], [], false, [], Json.str "", Json.obj []⟩
        [("f", Json.int 1)] (Json.str "f")
        (Json.obj [("cesmii:dataType",
            Json.obj [("@id", Json.str "opc:Int16"),
                      ("cesmii:profileReference", Json.str "ns:F")]),
          ("cesmii:isArray", Json.bool false)]) ""
        = validateItemsF (fun _ _ _ => none)
            (⟨Json.obj [], [], false, [], Json.str "", Json.obj []⟩ : PValidator).referenced_profiles
            0 items (some (Json.str "ns:F")) none
            (if "" = "" then pystr (Json.str "f") else "" ++ "." ++ pystr (Json.str "f"))) :=
  C4_nested_reference_priority (fun _ _ _ => none)
    ⟨Json.obj [], [], false, [], Json.str "", Json.obj []⟩
    [("f", Json.int 1)] (Json.str "f") (Json.str "opc:Int16") "ns:F" false ""
    (by decide)

/-- C6: nested-profile resolution walks `referenced_profiles` in iteration
order and selects the first entry whose key is a substring of the reference
or of which the reference is a substring; later entries are ignored. -/
theorem C6_first_bidirectional_substring_match
    (l1 l2 : List (String × Json)) (ns0 : String) (p : Json) (r : String)
    (h1 : ∀ q ∈ l1, ¬(q.1.data <:+: r.data) ∧ ¬(r.data <:+: q.1.data))
    (h2 : ns0.data <:+: r.data ∨ r.data <:+: ns0.data) :
    findRef (l1 ++ (ns0, p) :: l2) (.str r) = some p := by
  induction l1 with
  | nil =>
    have hm : nsMatch ns0 (.str r) = true := by
      rcases h2 with h | h <;> simp [nsMatch, h]
    simp [findRef, hm]
  | cons q rest ih =>
    have hq := h1 q (List.mem_cons_self _ _)
    have hm : nsMatch q.1 (.str r) = false := by
      simp [nsMatch, hq.1, hq.2]
    match q with
    | (nsq, pq) =>
      simp only [List.cons_append, findRef]
      rw [hm]
      simp only [Bool.false_eq_true, if_false]
      exact ih (fun q' hq' => h1 q' (List.mem_cons_of_mem _ hq'))

/-- Witness for C6: the reference strictly contains the matched key (no
exact equality), an earlier non-matching entry is skipped, and a later
entry is ignored. -/
theorem C6_witness :
    findRef
      ([("zzz:Other", Json.obj [("a", Json.int 1)])] ++
        ("ns:F", Json.obj [("b", Json.int 2)]) ::
          [("ns:F", Json.obj [("c", Json.int 3)])])
      (.str "https://example.com/ns:F/v1") = some (Json.obj [("b", Json.int 2)]) :=
  C6_first_bidirectional_substring_match
    [("zzz:Other", Json.obj [("a", Json.int 1)])]
    [("ns:F", Json.obj [("c", Json.int 3)])]
    "ns:F" (Json.obj [("b", Json.int 2)]) "https://example.com/ns:F/v1"
    (by decide) (by decide)

/-- A profile whose field `b` references profile B's namespace. -/
def profileA : Json :=
  .obj [("@id", .str "ns:A"),
        ("cesmii:attributes", .arr [
          .obj [("cesmii:browseName", .str "b"),
                ("cesmii:dataType",
                  .obj [("cesmii:profileReference", .str "ns:B")])]])]

/-- A profile whose field `a` references profile A's namespace back. -/
def profileB : Json :=
  .obj [("@id", .str "ns:B"),
        ("cesmii:attributes", .arr [
          .obj [("cesmii:browseName", .str "a"),
                ("cesmii:dataType",
                  .obj [("cesmii:profileReference", .str "ns:A")])]])]

/-- A cyclic referenced-profiles map: A references B and B references A. -/
def refsAB : List (String × Json) := [("ns:A", profileA), ("ns:B", profileB)]

/-- C9 counterexample: the claim asserts that with the cyclic profile graph
A ↔ B there is a payload on which validation recurses without bound; but in
the JSON data model every payload is a finite tree and each nested call
descends into a strict subvalue, so no payload exhausts every fuel bound. -/
theorem C9_counterexample :
    ¬ ∃ payload : Json, ∀ fuel : Nat,
        validateFuel fuel (mkValidator profileA refsAB) payload "" = none := by
  rintro ⟨payload, hp⟩
  have h := validateFuel_isSome (jsize payload) (mkValidator profileA refsAB) payload ""
    (le_refl _)
  rw [hp (jsize payload)] at h
  simp at h

/-- C9 (amended): even on the cyclic profile graph A ↔ B (each profile's
reference resolves to the other), validation terminates for every payload:
recursion is bounded by the payload's size, so fuel `jsize payload` always
produces a result. Unbounded recursion would require a non-well-founded
(self-referential) payload object, which lies outside the JSON data model. -/
theorem C9_cyclic_profile_graph_terminates (payload : Json) (pre : String) :
    findRef refsAB (.str "ns:B") = some profileB ∧
    findRef refsAB (.str "ns:A") = some profileA ∧
    (validateFuel (jsize payload) (mkValidator profileA refsAB) payload pre).isSome = true :=
  ⟨by decide, by decide,
    validateFuel_isSome (jsize payload) (mkValidator profileA refsAB) payload pre (le_refl _)⟩

end Cesmii
